import Mathlib

/-!
Verification of the state-transition engine of kokprojects/go-kok
(core/state_transition.go: `TransitionDb`, `buyGas`, `preCheck`, `refundGas`,
`IntrinsicGas`, `GetAddressType`, `HashTypeString`, `Layer`,
`CommonHash2Address`, `byteAppend`, `byteAppendAddress`, `ByteAndByte`).

Modelling conventions:
* Go `[]byte` values are `List Nat` with every entry < 256 by convention;
  a Go `common.Hash` ([32]byte) is a length-32 list, a `common.Address`
  ([20]byte) a length-20 list.
* Go `*big.Int` gas quantities are `Nat` (they are non-negative in all the
  code paths modelled); account balances are `Int`.
* Go `uint64` arithmetic wraps at `2 ^ 64`; the wrap is written explicitly
  with `% 2 ^ 64` at the operations that can overflow.
* A Go `[]byte` that can be `nil` (the message payload) is
  `Option (List Nat)`: `none` is the nil slice, `some l` a non-nil slice
  (which may be empty).  The source distinguishes the two
  (`len(st.data) > 0` at the template-Binary branch versus
  `st.data != nil` at the governance branch).
* Fallible steps return `Except`/`Option`; the world-state interface and
  the execution backend are explicit records of functions.
-/

/-- A 20-byte account address ([20]byte in Go), as a list of byte values. -/
abbrev Address : Type := List Nat

/-- The byte values of an ASCII string (Go `[]byte(s)`; all the string
literals the engine uses are ASCII, where byte values and code points
coincide). -/
def strCodes (s : String) : List Nat := s.toList.map Char.toNat

/-- Transaction kinds (`types.TxType`), the closed enumeration the engine
dispatches on.  The `types` package is not in the source tree but the set of
constants is fixed by the dispatch code and the spec's closed list. -/
inductive TxType where
  | Binary
  | SourceCode
  | Endorse
  | LoginCandidate
  | LogoutCandidate
  | Delegate
  | UnDelegate
deriving DecidableEq, Repr

/-- Errors surfaced by the transition (`core` and `vm` error values and the
`types.ErrInvalidType` / `types.ErrInvalidInput` sentinel errors). -/
inductive TErr where
  | ErrNonceTooHigh
  | ErrNonceTooLow
  | ErrInsufficientBalanceForGas
  | ErrOutOfGas
  | ErrGasLimitReached
  | ErrInvalidType
  | ErrInvalidInput
  | ErrInsufficientBalance
deriving DecidableEq, Repr

/-- Execution-backend errors.  The engine only ever inspects whether the
error equals `vm.ErrInsufficientBalance`; every other backend error is
collapsed into `OtherVMErr`. -/
inductive VMErr where
  | InsufficientBalance
  | OtherVMErr
deriving DecidableEq, Repr

/-- The world-state interface (`vm.StateDB`) as used by the transition:
balances, nonces, code, per-address storage, account existence and the
gas-refund counter. -/
structure StateDB where
  balance : Address → Int
  nonce : Address → Nat
  code : Address → List Nat
  storageMap : Address → List Nat → List Nat
  exist : Address → Bool
  refund : Nat

def StateDB.GetBalance (s : StateDB) (a : Address) : Int := s.balance a

def StateDB.GetNonce (s : StateDB) (a : Address) : Nat := s.nonce a

def StateDB.GetCode (s : StateDB) (a : Address) : List Nat := s.code a

def StateDB.GetState (s : StateDB) (a : Address) (k : List Nat) : List Nat := s.storageMap a k

def StateDB.GetRefund (s : StateDB) : Nat := s.refund

def StateDB.Exist (s : StateDB) (a : Address) : Bool := s.exist a

def StateDB.AddBalance (s : StateDB) (a : Address) (v : Int) : StateDB :=
  { s with balance := fun x => if x = a then s.balance a + v else s.balance x }

def StateDB.SubBalance (s : StateDB) (a : Address) (v : Int) : StateDB :=
  { s with balance := fun x => if x = a then s.balance a - v else s.balance x }

def StateDB.SetNonce (s : StateDB) (a : Address) (n : Nat) : StateDB :=
  { s with nonce := fun x => if x = a then n else s.nonce x }

def StateDB.CreateAccount (s : StateDB) (a : Address) : StateDB :=
  { s with exist := fun x => if x = a then true else s.exist x }

/-- Account materialisation of `st.from()` / `st.to()`: create the account if
it does not exist yet. -/
def ensureAcct (a : Address) (s : StateDB) : StateDB :=
  if s.Exist a then s else s.CreateAccount a

/-- Source `HashTypeString`: a zero [32]byte hash whose first `len s`
bytes are the bytes of `s` (used with the reserved tags "type" and
"coinbase", both shorter than 32 bytes). -/
def HashTypeString (s : String) : List Nat :=
  strCodes s ++ List.replicate (32 - (strCodes s).length) 0

/-- Source `GetAddressType`: build a string from the first 8 bytes of the
slot value and classify.  Byte-to-rune conversion is injective, so
comparing the 8 byte values with the code points of the literals is exact. -/
def GetAddressType (hash : List Nat) : String :=
  if hash.take 8 = strCodes "template" then "template"
  else if hash.take 8 = strCodes "contract" then "contract"
  else "normal"

/-- Source `CommonHash2Address`: `address[i] = hash[i]` for `i < 20`,
i.e. the first 20 bytes of the 32-byte slot value. -/
def CommonHash2Address (hash : List Nat) : Address := hash.take 20

/-- Source `byteAppend`: append `coinbase[i]` for `i < 20` to the
template byte stream. -/
def byteAppend (template : List Nat) (coinbase : List Nat) : List Nat :=
  template ++ coinbase.take 20

/-- Source `byteAppendAddress`: append the 20 address bytes. -/
def byteAppendAddress (template : List Nat) (address : Address) : List Nat :=
  template ++ address.take 20

/-- Source `ByteAndByte`: append every byte of `data` to `template`. -/
def ByteAndByte (template : List Nat) (data : List Nat) : List Nat :=
  template ++ data

/-- Library `common.BytesToHash` (standard library of the fork, not under src/):
right-align the bytes in a 32-byte hash, truncating from the left when
longer. -/
def BytesToHash (b : List Nat) : List Nat :=
  let c := if b.length > 32 then b.drop (b.length - 32) else b
  List.replicate (32 - c.length) 0 ++ c

/-- Source `Layer`: `gas_coinbase = gas / 10 * tail`,
`gas_mine = gas - gas_coinbase`, in `uint64` arithmetic (wrap written
explicitly; the subtraction cannot underflow for `tail = 1`, the only
call site, but the wrap form keeps the uint64 semantics). -/
def Layer (gas tail : Nat) : Nat × Nat :=
  ((gas + 2 ^ 64 - gas / 10 * tail % 2 ^ 64) % 2 ^ 64, gas / 10 * tail % 2 ^ 64)

/-- Gas-cost constants (`params`, not under src/; the values are the
standard protocol parameters of the upstream codebase). -/
def TxGas : Nat := 21000

def TxGasContractCreation : Nat := 53000

def TxDataZeroGas : Nat := 4

def TxDataNonZeroGas : Nat := 68

/-- Source `IntrinsicGas`: base cost (creation cost only under the
homestead rule) plus per-byte cost at two rates, zero bytes cheaper. -/
def IntrinsicGas (data : List Nat) (contractCreation homestead : Bool) : Nat :=
  let igas := if contractCreation && homestead then TxGasContractCreation else TxGas
  let nz := (data.filter (fun b => b ≠ 0)).length
  igas + nz * TxDataNonZeroGas + (data.length - nz) * TxDataZeroGas

/-- The message view of a transaction (`core.Message`).  `Data` is
`Option`al because a Go byte slice can be nil, and the source branches on
nil-ness for governance kinds. -/
structure Message where
  From : Address
  To : Option Address
  GasPrice : Nat
  Gas : Nat
  Value : Int
  Nonce : Nat
  CheckNonce : Bool
  Data : Option (List Nat)

/-- What an execution primitive returns: output bytes, remaining gas, an
optional error, and the mutated world state. -/
structure ExecOut where
  ret : List Nat
  gasLeft : Nat
  vmerr : Option VMErr
  state : StateDB

/-- The execution backend (`vm.EVM`), one entry point per primitive the
dispatch invokes, plus the block coinbase and the homestead flag of the
chain config.  The primitives themselves live in the vm package (not under
src/) and are abstract here. -/
structure EVM where
  Coinbase : Address
  TemplateF : Address → Option (List Nat) → Nat → Int → StateDB → ExecOut
  CreateF : Address → List Nat → Nat → Int → StateDB → ExecOut
  CallF : Address → Address → Option (List Nat) → Nat → Int → Option (List Address) → StateDB → ExecOut
  SourceCodeF : Address → Address → Option (List Nat) → Nat → Int → List Nat → StateDB → ExecOut
  EndorseF : Address → Address → Option (List Nat) → Nat → Int → List Nat → StateDB → ExecOut
  homestead : Bool

/-- Source `buyGas`: gas-width check, `limit * price` balance check,
gas-pool subtraction, working-budget credit, initial-gas record, sender
debit.  Returns `(gas, initialGas, state, gasPool)` on success.  On error
the state visible to the caller is the input state with the sender account
materialised (`st.from()`), which the caller already holds. -/
def buyGas (msg : Message) (state : StateDB) (gp : Nat) :
    Except TErr (Nat × Nat × StateDB × Nat) :=
  if 2 ^ 64 ≤ msg.Gas then .error .ErrOutOfGas
  else if (ensureAcct msg.From state).GetBalance msg.From < ((msg.Gas * msg.GasPrice : Nat) : Int)
    then .error .ErrInsufficientBalanceForGas
  else if gp < msg.Gas then .error .ErrGasLimitReached
  else .ok (0 + msg.Gas, msg.Gas,
    (ensureAcct msg.From state).SubBalance msg.From ((msg.Gas * msg.GasPrice : Nat) : Int),
    gp - msg.Gas)

/-- The recipient's resolved role: `""` for an absent recipient (the role
check is skipped for creation), otherwise `GetAddressType` of the
reserved "type" storage slot (TransitionDb, recipient classification). -/
def roleOf (state : StateDB) (mto : Option Address) : String :=
  match mto with
  | none => ""
  | some rcpt => GetAddressType (state.GetState rcpt (HashTypeString "type"))

/-- The `contractCreation` flag of TransitionDb: absent recipient, or a
recipient resolved as a template. -/
def contractCreationOf (state : StateDB) (mto : Option Address) : Bool :=
  match mto with
  | none => true
  | some _ => decide (roleOf state mto = "template")

/-- The intrinsic gas of a message as TransitionDb computes it: on the
payload bytes, with the creation flag from the resolved role and the
chain's homestead flag. -/
def intrinsicOf (evm : EVM) (msg : Message) (state : StateDB) : Nat :=
  IntrinsicGas (msg.Data.getD []) (contractCreationOf state msg.To) evm.homestead

/-- The world state right after a successful gas purchase: the sender
account materialised and debited by `gasLimit * gasPrice`. -/
def state2Of (msg : Message) (state0 : StateDB) : StateDB :=
  (ensureAcct msg.From state0).SubBalance msg.From ((msg.Gas * msg.GasPrice : Nat) : Int)

/-- The preconditions under which a transition passes the nonce check, the
gas purchase and the intrinsic-gas charge, i.e. reaches the dispatch
switch. -/
def reachesDispatch (evm : EVM) (msg : Message) (state0 : StateDB) (gp0 : Nat) : Prop :=
  (msg.CheckNonce = true → state0.GetNonce msg.From = msg.Nonce) ∧
  msg.Gas < 2 ^ 64 ∧
  ((msg.Gas * msg.GasPrice : Nat) : Int) ≤ state0.GetBalance msg.From ∧
  msg.Gas ≤ gp0 ∧
  intrinsicOf evm msg state0 < 2 ^ 64 ∧
  intrinsicOf evm msg state0 ≤ msg.Gas

/-- Source `refundGas`: credit the remaining gas at the original price,
apply `min(gasUsed / 2, refund counter)` to the working budget and credit
it too, then return the final unused gas to the block gas pool.  `gasUsed`
here is `initialGas - gas` before the refund is applied; `gas ≤ initialGas`
holds on every path of TransitionDb with a gas-bounded backend, and the
truncated subtraction coincides with the source's big.Int subtraction
there.  Returns `(gas, state, gasPool)`. -/
def refundGas (From : Address) (gasPrice gas initialGas : Nat) (state : StateDB) (gp : Nat) :
    Nat × StateDB × Nat :=
  let state := ensureAcct From state
  let remaining := gas * gasPrice
  let state := state.AddBalance From (remaining : Int)
  let uhalf := (initialGas - gas) / 2
  let refund := min uhalf state.GetRefund
  let gas := gas + refund
  let state := state.AddBalance From ((refund * gasPrice : Nat) : Int)
  let gp := gp + gas
  (gas, state, gp)

/-- The dispatch switch of TransitionDb (lines selecting the execution
primitive from recipient presence, resolved role and transaction kind).
Mirrors the Go `if msg.To() == nil` / `switch addressType` block,
including the (unreachable) empty fall-through when the role string is
none of the three cases. -/
def dispatch (evm : EVM) (msg : Message) (valS : List Address) (txHash : List Nat)
    (txType : TxType) (addressType : String) (gas : Nat) (state : StateDB) :
    Except TErr ExecOut :=
  match msg.To with
  | none => .ok (evm.TemplateF msg.From msg.Data gas msg.Value state)
  | some rcpt =>
    if addressType = "template" then
      if txType = .Binary then
        let templateCode := state.GetCode rcpt
        let templateCode :=
          if 0 < (msg.Data.getD []).length then ByteAndByte templateCode (msg.Data.getD [])
          else templateCode
        let coinbase := state.GetState rcpt (HashTypeString "coinbase")
        let templateCode := byteAppend templateCode coinbase
        let templateCode := byteAppendAddress templateCode rcpt
        .ok (evm.CreateF msg.From templateCode gas msg.Value state)
      else if txType = .SourceCode then
        let state := state.SetNonce msg.From ((state.GetNonce msg.From + 1) % 2 ^ 64)
        .ok (evm.SourceCodeF msg.From rcpt msg.Data gas msg.Value (BytesToHash txHash) state)
      else if txType = .Endorse then
        let state := state.SetNonce msg.From ((state.GetNonce msg.From + 1) % 2 ^ 64)
        .ok (evm.EndorseF msg.From rcpt msg.Data gas msg.Value (BytesToHash txHash) state)
      else .error .ErrInvalidType
    else if addressType = "contract" then
      if txType = .Endorse then
        let state := state.SetNonce msg.From ((state.GetNonce msg.From + 1) % 2 ^ 64)
        .ok (evm.EndorseF msg.From rcpt msg.Data gas msg.Value (BytesToHash txHash) state)
      else if txType = .Binary then
        let state := state.SetNonce msg.From ((state.GetNonce msg.From + 1) % 2 ^ 64)
        .ok (evm.CallF msg.From rcpt msg.Data gas msg.Value none state)
      else .error .ErrInvalidType
    else if addressType = "normal" then
      if txType = .Endorse then
        let state := state.SetNonce msg.From ((state.GetNonce msg.From + 1) % 2 ^ 64)
        .ok (evm.EndorseF msg.From rcpt msg.Data gas msg.Value (BytesToHash txHash) state)
      else if txType = .Binary then
        let state := state.SetNonce msg.From ((state.GetNonce msg.From + 1) % 2 ^ 64)
        .ok (evm.CallF msg.From rcpt msg.Data gas msg.Value (some valS) state)
      else if txType = .LoginCandidate ∨ txType = .LogoutCandidate ∨
          txType = .Delegate ∨ txType = .UnDelegate then
        if msg.Data ≠ none then .error .ErrInvalidInput
        else
          let state := state.SetNonce msg.From ((state.GetNonce msg.From + 1) % 2 ^ 64)
          .ok (evm.CallF msg.From rcpt msg.Data gas msg.Value (some valS) state)
      else .error .ErrInvalidType
    else .ok ⟨[], gas, none, state⟩

/-- The reward split after the refund (TransitionDb, tail): for a contract
recipient split `usedGas` with `Layer`, paying the mined share to the
block coinbase and the tail share to the address recovered from the
recipient's "coinbase" storage slot; otherwise the whole fee goes to the
block coinbase. -/
def rewardStep (evm : EVM) (mto : Option Address) (addressType : String)
    (gasPrice usedGas : Nat) (state : StateDB) : StateDB :=
  if addressType = "contract" then
    (state.AddBalance evm.Coinbase (((Layer usedGas 1).1 * gasPrice : Nat) : Int)).AddBalance
      (CommonHash2Address
        ((state.AddBalance evm.Coinbase (((Layer usedGas 1).1 * gasPrice : Nat) : Int)).GetState
          (mto.getD (List.replicate 20 0)) (HashTypeString "coinbase")))
      (((Layer usedGas 1).2 * gasPrice : Nat) : Int)
  else state.AddBalance evm.Coinbase ((usedGas * gasPrice : Nat) : Int)

/-- The result of one transition: the five returned values of
`TransitionDb` (nil big.Ints become `none`) together with the final world
state, gas pool, and the final internal `st.gas` / `st.initialGas`. -/
structure TDbOut where
  ret : List Nat
  requiredGas : Option Nat
  usedGas : Option Nat
  failed : Bool
  err : Option TErr
  state : StateDB
  gp : Nat
  gasLeft : Nat
  initialGas : Nat

/-- An early `return nil, nil, nil, false, err` of TransitionDb, carrying
whatever state mutations had already been committed. -/
def earlyOut (e : TErr) (state : StateDB) (gp gasLeft initialGas : Nat) : TDbOut :=
  ⟨[], none, none, false, some e, state, gp, gasLeft, initialGas⟩

/-- The tail of TransitionDb after a successful dispatch without a
propagated insufficient-balance error: record the pre-refund gas used,
run `refundGas`, recompute the used gas, and apply the reward split. -/
def finishTr (evm : EVM) (msg : Message) (addressType : String) (eo : ExecOut)
    (gp1 initialGas : Nat) : TDbOut :=
  ⟨eo.ret, some (initialGas - eo.gasLeft),
    some (initialGas - (refundGas msg.From msg.GasPrice eo.gasLeft initialGas eo.state gp1).1),
    eo.vmerr.isSome, none,
    rewardStep evm msg.To addressType msg.GasPrice
      (initialGas - (refundGas msg.From msg.GasPrice eo.gasLeft initialGas eo.state gp1).1)
      (refundGas msg.From msg.GasPrice eo.gasLeft initialGas eo.state gp1).2.1,
    (refundGas msg.From msg.GasPrice eo.gasLeft initialGas eo.state gp1).2.2,
    (refundGas msg.From msg.GasPrice eo.gasLeft initialGas eo.state gp1).1, initialGas⟩

/-- TransitionDb after the intrinsic-gas charge: dispatch, propagate only
`vm.ErrInsufficientBalance`, then refund and reward. -/
def afterIntrinsic (evm : EVM) (msg : Message) (valS : List Address) (txHash : List Nat)
    (txType : TxType) (addressType : String) (gas2 : Nat) (state2 : StateDB)
    (gp1 initialGas : Nat) : TDbOut :=
  match dispatch evm msg valS txHash txType addressType gas2 state2 with
  | .error e => earlyOut e state2 gp1 gas2 initialGas
  | .ok eo =>
    if eo.vmerr = some .InsufficientBalance then
      earlyOut .ErrInsufficientBalance eo.state gp1 eo.gasLeft initialGas
    else finishTr evm msg addressType eo gp1 initialGas

/-- TransitionDb after a successful gas purchase: resolve the recipient
role, charge intrinsic gas (with the 64-bit width check), then dispatch. -/
def transitionCore (evm : EVM) (msg : Message) (valS : List Address) (txHash : List Nat)
    (txType : TxType) (state2 : StateDB) (gp1 gas1 initialGas : Nat) : TDbOut :=
  if 2 ^ 64 ≤ intrinsicOf evm msg state2 then earlyOut .ErrOutOfGas state2 gp1 gas1 initialGas
  else if gas1 < intrinsicOf evm msg state2 then earlyOut .ErrOutOfGas state2 gp1 gas1 initialGas
  else afterIntrinsic evm msg valS txHash txType (roleOf state2 msg.To)
    (gas1 - intrinsicOf evm msg state2) state2 gp1 initialGas

/-- Source `TransitionDb`: `preCheck` (sender materialisation, exact
nonce match when enabled, `buyGas`), then `transitionCore`. -/
def TransitionDb (evm : EVM) (msg : Message) (valS : List Address) (txHash : List Nat)
    (txType : TxType) (state0 : StateDB) (gp0 : Nat) : TDbOut :=
  if msg.CheckNonce ∧ (ensureAcct msg.From state0).GetNonce msg.From < msg.Nonce then
    earlyOut .ErrNonceTooHigh (ensureAcct msg.From state0) gp0 0 0
  else if msg.CheckNonce ∧ msg.Nonce < (ensureAcct msg.From state0).GetNonce msg.From then
    earlyOut .ErrNonceTooLow (ensureAcct msg.From state0) gp0 0 0
  else
    match buyGas msg (ensureAcct msg.From state0) gp0 with
    | .error e => earlyOut e (ensureAcct msg.From state0) gp0 0 0
    | .ok (gas1, initialGas, state2, gp1) =>
      transitionCore evm msg valS txHash txType state2 gp1 gas1 initialGas

/-! ## Basic state-interface lemmas -/

theorem ensureAcct_balance (a : Address) (s : StateDB) :
    (ensureAcct a s).balance = s.balance := by
  unfold ensureAcct StateDB.CreateAccount
  split <;> rfl

theorem ensureAcct_GetBalance (a b : Address) (s : StateDB) :
    (ensureAcct a s).GetBalance b = s.GetBalance b := by
  unfold StateDB.GetBalance
  rw [ensureAcct_balance]

theorem ensureAcct_nonce (a : Address) (s : StateDB) :
    (ensureAcct a s).nonce = s.nonce := by
  unfold ensureAcct StateDB.CreateAccount
  split <;> rfl

theorem ensureAcct_GetNonce (a b : Address) (s : StateDB) :
    (ensureAcct a s).GetNonce b = s.GetNonce b := by
  unfold StateDB.GetNonce
  rw [ensureAcct_nonce]

theorem ensureAcct_storage (a : Address) (s : StateDB) :
    (ensureAcct a s).storageMap = s.storageMap := by
  unfold ensureAcct StateDB.CreateAccount
  split <;> rfl

theorem ensureAcct_refund (a : Address) (s : StateDB) :
    (ensureAcct a s).GetRefund = s.GetRefund := by
  unfold ensureAcct StateDB.CreateAccount StateDB.GetRefund
  split <;> rfl

theorem AddBalance_GetBalance_same (s : StateDB) (a : Address) (v : Int) :
    (s.AddBalance a v).GetBalance a = s.GetBalance a + v := by
  simp [StateDB.AddBalance, StateDB.GetBalance]

theorem AddBalance_GetBalance_other (s : StateDB) (a b : Address) (v : Int) (h : b ≠ a) :
    (s.AddBalance a v).GetBalance b = s.GetBalance b := by
  simp [StateDB.AddBalance, StateDB.GetBalance, h]

theorem AddBalance_GetRefund (s : StateDB) (a : Address) (v : Int) :
    (s.AddBalance a v).GetRefund = s.GetRefund := rfl

theorem AddBalance_GetState (s : StateDB) (a : Address) (v : Int) :
    (s.AddBalance a v).GetState = s.GetState := rfl

theorem SubBalance_storage (s : StateDB) (a : Address) (v : Int) :
    (s.SubBalance a v).storageMap = s.storageMap := rfl

/-- The function `GetAddressType` only returns one of the three role strings. -/
theorem getAddressType_mem (h : List Nat) :
    GetAddressType h = "template" ∨ GetAddressType h = "contract" ∨
      GetAddressType h = "normal" := by
  unfold GetAddressType
  split
  · exact Or.inl rfl
  · split
    · exact Or.inr (Or.inl rfl)
    · exact Or.inr (Or.inr rfl)

/-! ## C10: address classification -/

/-- C10: address classification is a pure, deterministic function of the
32-byte slot value that depends only on its first 8 bytes; the 8 ASCII
bytes "template" give role template, "contract" gives contract, and every
other value (the all-zero unset slot included) gives normal, whatever the
remaining 24 bytes hold; classifying the same value twice agrees. -/
theorem claim_C10 (h1 h2 : List Nat) (heq : h1.take 8 = h2.take 8) :
    GetAddressType h1 = GetAddressType h2 ∧
    (h1.take 8 = strCodes "template" → GetAddressType h1 = "template") ∧
    (h1.take 8 = strCodes "contract" → GetAddressType h1 = "contract") ∧
    (h1.take 8 ≠ strCodes "template" → h1.take 8 ≠ strCodes "contract" →
      GetAddressType h1 = "normal") ∧
    GetAddressType (List.replicate 32 0) = "normal" ∧
    GetAddressType h1 = GetAddressType h1 := by
  refine ⟨?_, ?_, ?_, ?_, ?_, rfl⟩
  · unfold GetAddressType
    rw [heq]
  · intro h
    unfold GetAddressType
    rw [h, if_pos rfl]
  · intro h
    unfold GetAddressType
    rw [h]
    decide
  · intro ht hc
    unfold GetAddressType
    rw [if_neg ht, if_neg hc]
  · decide

/-- Witness for C10 at concrete slot values sharing their first 8 bytes
but differing afterwards. -/
theorem claim_C10_witness :
    (strCodes "template" ++ List.replicate 24 0).take 8
        = (strCodes "template" ++ List.replicate 24 7).take 8 ∧
    GetAddressType (strCodes "template" ++ List.replicate 24 0)
        = GetAddressType (strCodes "template" ++ List.replicate 24 7) ∧
    GetAddressType (strCodes "template" ++ List.replicate 24 0) = "template" := by
  have heq : (strCodes "template" ++ List.replicate 24 0).take 8
      = (strCodes "template" ++ List.replicate 24 7).take 8 := by decide
  have h := claim_C10 (strCodes "template" ++ List.replicate 24 0)
    (strCodes "template" ++ List.replicate 24 7) heq
  exact ⟨heq, h.1, h.2.1 (by decide)⟩

theorem ensureAcct_refund_raw (a : Address) (s : StateDB) :
    (ensureAcct a s).refund = s.refund := by
  unfold ensureAcct StateDB.CreateAccount
  split <;> rfl

/-! ## C8: recovery of the delegated coinbase address -/

/-- Modelled from the spec: the code that writes the delegated "coinbase"
storage slot is not in the source tree (only the two readers are).  The
spec states the 20-byte address is stored right-aligned in the 32-byte
slot, i.e. in bytes 12..31. -/
def storeCoinbaseSlot (a : Address) : List Nat :=
  List.replicate 12 0 ++ a

/-- A concrete 20-byte address with a distinctive byte pattern. -/
def c8Addr : Address := (List.range 20).map (fun i => i + 1)

/-- C8 counterexample: with the coinbase address stored right-aligned, as
the spec asserts, neither recovery site returns the stored address — both
`CommonHash2Address` (reward split) and `byteAppend` (template init-code
assembly) read the FIRST 20 bytes of the slot. -/
theorem claim_C8_cex :
    CommonHash2Address (storeCoinbaseSlot c8Addr) ≠ c8Addr ∧
    byteAppend [] (storeCoinbaseSlot c8Addr) ≠ [] ++ c8Addr := by
  decide

/-- C8 (amended): both recovery sites read the first 20 bytes of the
32-byte slot (a left-aligned layout); a left-aligned stored address
round-trips through both. -/
theorem claim_C8_thm (h t : List Nat) (a : Address) (ha : a.length = 20) :
    CommonHash2Address h = h.take 20 ∧
    byteAppend t h = t ++ h.take 20 ∧
    CommonHash2Address (a ++ List.replicate 12 0) = a ∧
    byteAppend t (a ++ List.replicate 12 0) = t ++ a := by
  have htake : (a ++ List.replicate 12 0).take 20 = a := by
    rw [List.take_left' ha]
  exact ⟨rfl, rfl, by unfold CommonHash2Address; rw [htake],
    by unfold byteAppend; rw [htake]⟩

/-- Witness for C8's amended theorem at the concrete address. -/
theorem claim_C8_witness :
    CommonHash2Address (c8Addr ++ List.replicate 12 0) = c8Addr ∧
    byteAppend [7] (c8Addr ++ List.replicate 12 0) = [7] ++ c8Addr := by
  have h := claim_C8_thm (storeCoinbaseSlot c8Addr) [7] c8Addr (by decide)
  exact ⟨h.2.2.1, h.2.2.2⟩

/-! ## C2: the refund step -/

/-- C2: `refundGas` credits the sender with remaining-gas times the
original purchase price, additionally credits `min(refund counter,
preRefundGasUsed / 2)` at that same price after adding it to the working
gas budget, and returns the final unused gas (remaining plus applied
refund) to the per-block gas pool; the applied refund never exceeds half
of the gas used before the refund, however large the raw counter is. -/
theorem claim_C2 (From : Address) (gasPrice gas initialGas : Nat) (state : StateDB) (gp : Nat)
    (_hg : gas ≤ initialGas) :
    (refundGas From gasPrice gas initialGas state gp).2.1.GetBalance From
        = state.GetBalance From
          + ((gas * gasPrice : Nat) : Int)
          + ((min ((initialGas - gas) / 2) state.GetRefund * gasPrice : Nat) : Int) ∧
    (refundGas From gasPrice gas initialGas state gp).1
        = gas + min ((initialGas - gas) / 2) state.GetRefund ∧
    (refundGas From gasPrice gas initialGas state gp).2.2
        = gp + (gas + min ((initialGas - gas) / 2) state.GetRefund) ∧
    min ((initialGas - gas) / 2) state.GetRefund ≤ (initialGas - gas) / 2 := by
  refine ⟨?_, ?_, ?_, min_le_left _ _⟩ <;>
    simp [refundGas, StateDB.AddBalance, StateDB.GetBalance, StateDB.GetRefund,
      ensureAcct_balance, ensureAcct_refund_raw]

/-- Witness for C2: 100 gas remaining of 300 purchased at price 7, raw
refund counter 1000000; the applied refund is capped at 100 = (300-100)/2. -/
theorem claim_C2_witness :
    (refundGas [1] 7 100 300 ⟨fun _ => 0, fun _ => 0, fun _ => [], fun _ _ => [],
        fun _ => false, 1000000⟩ 500).2.1.GetBalance [1] = 0 + (700 : Int) + 700 ∧
    (refundGas [1] 7 100 300 ⟨fun _ => 0, fun _ => 0, fun _ => [], fun _ _ => [],
        fun _ => false, 1000000⟩ 500).1 = 200 ∧
    (refundGas [1] 7 100 300 ⟨fun _ => 0, fun _ => 0, fun _ => [], fun _ _ => [],
        fun _ => false, 1000000⟩ 500).2.2 = 700 ∧
    min ((300 - 100) / 2) 1000000 ≤ (300 - 100) / 2 := by
  have h := claim_C2 [1] 7 100 300 ⟨fun _ => 0, fun _ => 0, fun _ => [], fun _ _ => [],
    fun _ => false, 1000000⟩ 500 (by omega)
  refine ⟨?_, ?_, ?_, h.2.2.2⟩
  · rw [h.1]; decide
  · rw [h.2.1]; decide
  · rw [h.2.2.1]; decide

/-! ## C3: the reward split -/

/-- Evaluating `Layer gas 1` in range: one tenth (integer division) for the tail
beneficiary, the remainder for the miner. -/
theorem Layer_one (gas : Nat) (h : gas < 2 ^ 64) :
    Layer gas 1 = (gas - gas / 10, gas / 10) := by
  have e : (2 : Nat) ^ 64 = 18446744073709551616 := by norm_num
  unfold Layer
  rw [e] at h ⊢
  have h10 : gas / 10 * 1 = gas / 10 := Nat.mul_one _
  rw [h10]
  have hle : gas / 10 ≤ gas := Nat.div_le_self _ _
  have hmod : gas / 10 % 18446744073709551616 = gas / 10 := Nat.mod_eq_of_lt (by omega)
  rw [hmod]
  have h2 : gas + 18446744073709551616 - gas / 10
      = (gas - gas / 10) + 18446744073709551616 := by omega
  rw [h2, Nat.add_mod_right, Nat.mod_eq_of_lt (by omega)]

/-- C3: on completing a transition, the fee is split precisely when the
resolved recipient role is "contract": the secondary beneficiary address
recovered from the recipient's coinbase slot receives
`usedGas / 10 * gasPrice` (truncating division) and the block coinbase
receives `(usedGas - usedGas / 10) * gasPrice`; for any other role the
block coinbase receives the whole `usedGas * gasPrice`.  (`rewardStep` is
the reward section of TransitionDb, applied exactly when dispatch
completes without a fatal error.) -/
theorem claim_C3 (evm : EVM) (rcpt : Address) (addressType : String)
    (gasPrice usedGas : Nat) (state : StateDB)
    (hu : usedGas < 2 ^ 64)
    (hne : CommonHash2Address (state.GetState rcpt (HashTypeString "coinbase")) ≠ evm.Coinbase) :
    (addressType = "contract" →
      (rewardStep evm (some rcpt) addressType gasPrice usedGas state).GetBalance
          (CommonHash2Address (state.GetState rcpt (HashTypeString "coinbase")))
        = state.GetBalance (CommonHash2Address (state.GetState rcpt (HashTypeString "coinbase")))
          + ((usedGas / 10 * gasPrice : Nat) : Int) ∧
      (rewardStep evm (some rcpt) addressType gasPrice usedGas state).GetBalance evm.Coinbase
        = state.GetBalance evm.Coinbase + (((usedGas - usedGas / 10) * gasPrice : Nat) : Int)) ∧
    (addressType ≠ "contract" →
      (rewardStep evm (some rcpt) addressType gasPrice usedGas state).GetBalance evm.Coinbase
        = state.GetBalance evm.Coinbase + ((usedGas * gasPrice : Nat) : Int)) := by
  have hL := Layer_one usedGas hu
  refine ⟨fun hc => ?_, fun hc => ?_⟩
  · simp only [rewardStep, hc, if_pos, AddBalance_GetState, Option.getD_some, hL]
    constructor
    · rw [AddBalance_GetBalance_same, AddBalance_GetBalance_other _ _ _ _ hne]
    · rw [AddBalance_GetBalance_other _ _ _ _ (Ne.symm hne), AddBalance_GetBalance_same]
  · simp only [rewardStep, if_neg hc]
    rw [AddBalance_GetBalance_same]

/-- A concrete execution backend: every primitive returns empty output,
zero gas and the state it was given. -/
def c3Evm : EVM :=
  ⟨List.replicate 20 3, fun _ _ _ _ st => ⟨[], 0, none, st⟩,
    fun _ _ _ _ st => ⟨[], 0, none, st⟩, fun _ _ _ _ _ _ st => ⟨[], 0, none, st⟩,
    fun _ _ _ _ _ _ st => ⟨[], 0, none, st⟩, fun _ _ _ _ _ _ st => ⟨[], 0, none, st⟩, true⟩

/-- A concrete state whose every storage slot holds 12 bytes of 9 followed
by 20 bytes of 4. -/
def c3State : StateDB :=
  ⟨fun _ => 0, fun _ => 0, fun _ => [], fun _ _ => List.replicate 12 9 ++ List.replicate 20 4,
    fun _ => false, 0⟩

def c3Rcpt : Address := List.replicate 20 2

def c3Sec : Address := CommonHash2Address (c3State.GetState c3Rcpt (HashTypeString "coinbase"))

/-- Witness for C3 with `usedGas = 100`, `gasPrice = 5` on a zero-balance
state: the secondary beneficiary receives 50, the block coinbase 450, and
for a non-contract role the coinbase receives all 500. -/
theorem claim_C3_witness :
    (rewardStep c3Evm (some c3Rcpt) "contract" 5 100 c3State).GetBalance c3Sec = 0 + (50 : Int) ∧
    (rewardStep c3Evm (some c3Rcpt) "contract" 5 100 c3State).GetBalance c3Evm.Coinbase
      = 0 + (450 : Int) ∧
    (rewardStep c3Evm (some c3Rcpt) "normal" 5 100 c3State).GetBalance c3Evm.Coinbase
      = 0 + (500 : Int) := by
  have h1 := claim_C3 c3Evm c3Rcpt "contract" 5 100 c3State (by norm_num) (by decide)
  have h2 := claim_C3 c3Evm c3Rcpt "normal" 5 100 c3State (by norm_num) (by decide)
  obtain ⟨ha, hb⟩ := h1.1 rfl
  refine ⟨?_, ?_, ?_⟩
  · unfold c3Sec
    rw [ha]
    decide
  · rw [hb]
    decide
  · rw [h2.2 (by decide)]
    decide

/-! ## Reaching the dispatch switch -/

theorem ensureAcct_exist (a : Address) (s : StateDB) : (ensureAcct a s).Exist a = true := by
  unfold ensureAcct StateDB.Exist StateDB.CreateAccount
  split
  · simpa [StateDB.Exist] using (by assumption)
  · simp

theorem ensureAcct_idem (a : Address) (s : StateDB) :
    ensureAcct a (ensureAcct a s) = ensureAcct a s := by
  show (if (ensureAcct a s).Exist a = true then ensureAcct a s
    else (ensureAcct a s).CreateAccount a) = ensureAcct a s
  rw [if_pos (ensureAcct_exist a s)]

theorem state2Of_GetState (msg : Message) (s : StateDB) (a : Address) (k : List Nat) :
    (state2Of msg s).GetState a k = s.GetState a k := by
  unfold state2Of StateDB.GetState
  rw [SubBalance_storage, ensureAcct_storage]

theorem roleOf_state2Of (msg : Message) (s : StateDB) :
    roleOf (state2Of msg s) msg.To = roleOf s msg.To := by
  unfold roleOf
  cases msg.To with
  | none => rfl
  | some rcpt => simp only [state2Of_GetState]

theorem contractCreationOf_state2Of (msg : Message) (s : StateDB) :
    contractCreationOf (state2Of msg s) msg.To = contractCreationOf s msg.To := by
  unfold contractCreationOf
  cases hmt : msg.To with
  | none => rfl
  | some rcpt =>
    have := roleOf_state2Of msg s
    rw [hmt] at this
    rw [this]

theorem intrinsicOf_state2Of (evm : EVM) (msg : Message) (s : StateDB) :
    intrinsicOf evm msg (state2Of msg s) = intrinsicOf evm msg s := by
  unfold intrinsicOf
  rw [contractCreationOf_state2Of]

theorem buyGas_ok0 (msg : Message) (state0 : StateDB) (gp : Nat)
    (h2 : msg.Gas < 2 ^ 64)
    (h3 : ((msg.Gas * msg.GasPrice : Nat) : Int) ≤ state0.GetBalance msg.From)
    (h4 : msg.Gas ≤ gp) :
    buyGas msg (ensureAcct msg.From state0) gp
      = .ok (0 + msg.Gas, msg.Gas, state2Of msg state0, gp - msg.Gas) := by
  unfold buyGas state2Of
  rw [ensureAcct_idem]
  rw [if_neg (by omega),
    if_neg (not_lt.mpr (by rw [ensureAcct_GetBalance]; exact h3)),
    if_neg (not_lt.mpr h4)]

/-- With the reach preconditions, TransitionDb is the post-intrinsic tail,
applied to the role resolved on the initial state, the gas budget after
the intrinsic charge, the debited state, and the reduced gas pool. -/
theorem transitionDb_reach (evm : EVM) (msg : Message) (valS : List Address) (txHash : List Nat)
    (txType : TxType) (state0 : StateDB) (gp0 : Nat)
    (h : reachesDispatch evm msg state0 gp0) :
    TransitionDb evm msg valS txHash txType state0 gp0 =
      afterIntrinsic evm msg valS txHash txType (roleOf state0 msg.To)
        (msg.Gas - intrinsicOf evm msg state0) (state2Of msg state0) (gp0 - msg.Gas) msg.Gas := by
  obtain ⟨h1, h2, h3, h4, h5, h6⟩ := h
  unfold TransitionDb
  rw [if_neg (by
      rintro ⟨hcn, hlt⟩
      rw [ensureAcct_GetNonce, h1 hcn] at hlt
      exact lt_irrefl _ hlt),
    if_neg (by
      rintro ⟨hcn, hlt⟩
      rw [ensureAcct_GetNonce, h1 hcn] at hlt
      exact lt_irrefl _ hlt)]
  rw [buyGas_ok0 msg state0 gp0 h2 h3 h4]
  show transitionCore evm msg valS txHash txType (state2Of msg state0) (gp0 - msg.Gas)
    (0 + msg.Gas) msg.Gas = _
  unfold transitionCore
  rw [intrinsicOf_state2Of, roleOf_state2Of, Nat.zero_add]
  rw [if_neg (not_le.mpr h5), if_neg (not_lt.mpr h6)]

theorem afterIntrinsic_error (evm : EVM) (msg : Message) (valS : List Address)
    (txHash : List Nat) (txType : TxType) (role : String) (gas2 : Nat) (state2 : StateDB)
    (gp1 initialGas : Nat) (e : TErr)
    (hd : dispatch evm msg valS txHash txType role gas2 state2 = .error e) :
    afterIntrinsic evm msg valS txHash txType role gas2 state2 gp1 initialGas
      = earlyOut e state2 gp1 gas2 initialGas := by
  unfold afterIntrinsic
  rw [hd]

theorem afterIntrinsic_ok (evm : EVM) (msg : Message) (valS : List Address)
    (txHash : List Nat) (txType : TxType) (role : String) (gas2 : Nat) (state2 : StateDB)
    (gp1 initialGas : Nat) (eo : ExecOut)
    (hd : dispatch evm msg valS txHash txType role gas2 state2 = .ok eo) :
    afterIntrinsic evm msg valS txHash txType role gas2 state2 gp1 initialGas
      = if eo.vmerr = some .InsufficientBalance then
          earlyOut .ErrInsufficientBalance eo.state gp1 eo.gasLeft initialGas
        else finishTr evm msg role eo gp1 initialGas := by
  unfold afterIntrinsic
  rw [hd]

/-! ## C6: template-Binary deployment staging -/

/-- C6: for a present recipient with resolved role template and kind
Binary, the engine reads the recipient's code, appends the payload exactly
when it is non-empty, then the first 20 bytes of the recorded coinbase
slot and the recipient's own 20-byte address, and hands the assembled
stream to the creation primitive — passing the world state untouched, so
the sender's nonce is not incremented (every other executing branch of
the dispatch updates the nonce before calling its primitive). -/
theorem claim_C6 (evm : EVM) (msg : Message) (valS : List Address) (txHash : List Nat)
    (gas : Nat) (state : StateDB) (rcpt : Address) (hto : msg.To = some rcpt)
    (hr : rcpt.length = 20) :
    dispatch evm msg valS txHash .Binary "template" gas state =
      .ok (evm.CreateF msg.From
        (state.GetCode rcpt
          ++ (if 0 < (msg.Data.getD []).length then msg.Data.getD [] else [])
          ++ (state.GetState rcpt (HashTypeString "coinbase")).take 20
          ++ rcpt)
        gas msg.Value state) := by
  have h20 : rcpt.take 20 = rcpt := by
    rw [← hr]
    exact List.take_length _
  by_cases hd : 0 < (msg.Data.getD []).length <;>
    simp [dispatch, hto, byteAppend, byteAppendAddress, ByteAndByte, h20, hd,
      List.append_assoc]

/-- Witness for C6: concrete template code [1,2], payload [5], coinbase
slot and recipient address from the fixtures. -/
theorem claim_C6_witness :
    dispatch c3Evm
      ⟨List.replicate 20 1, some c3Rcpt, 1, 30000, 0, 0, false, some [5]⟩ [] [] .Binary
      "template" 9000
      ⟨fun _ => 0, fun _ => 0, fun _ => [1, 2],
        fun _ _ => List.replicate 12 9 ++ List.replicate 20 4, fun _ => false, 0⟩ =
    .ok (c3Evm.CreateF (List.replicate 20 1)
      ([1, 2] ++ [5] ++ (List.replicate 12 9 ++ [4, 4, 4, 4, 4, 4, 4, 4]) ++ c3Rcpt)
      9000 0
      ⟨fun _ => 0, fun _ => 0, fun _ => [1, 2],
        fun _ _ => List.replicate 12 9 ++ List.replicate 20 4, fun _ => false, 0⟩) := by
  have h := claim_C6 c3Evm
    ⟨List.replicate 20 1, some c3Rcpt, 1, 30000, 0, 0, false, some [5]⟩ [] [] 9000
    ⟨fun _ => 0, fun _ => 0, fun _ => [1, 2],
      fun _ _ => List.replicate 12 9 ++ List.replicate 20 4, fun _ => false, 0⟩
    c3Rcpt rfl (by decide)
  rw [h]
  rfl

/-! ## C7: governance kinds and the payload check -/

/-- A message whose payload is the empty—but non-nil—byte slice, aimed at
a normal recipient with a governance kind. -/
def c7Msg : Message :=
  ⟨List.replicate 20 1, some (List.replicate 20 2), 1, 30000, 0, 0, false, some []⟩

/-- C7 counterexample: the claim says an empty payload leads to the nonce
increment and the plain call; but the source checks `st.data != nil`, not
emptiness, so the empty non-nil payload of `c7Msg` fails with the
invalid-input error instead of invoking the call primitive. -/
theorem claim_C7_cex :
    (c7Msg.Data.getD []).length = 0 ∧
    dispatch c3Evm c7Msg [] [] .Delegate "normal" 9000 c3State = .error .ErrInvalidInput := by
  exact ⟨rfl, rfl⟩

/-- C7 (amended): for a normal recipient with a governance kind
(LoginCandidate, LogoutCandidate, Delegate, UnDelegate), a non-nil payload
— even an empty one — fails fatally with the invalid-input error before
any execution, and a nil payload leads to incrementing the sender's nonce
and invoking the plain call primitive with the validator set. -/
theorem claim_C7_thm (evm : EVM) (msg : Message) (valS : List Address) (txHash : List Nat)
    (gas : Nat) (state : StateDB) (rcpt : Address) (k : TxType)
    (hto : msg.To = some rcpt)
    (hk : k = .LoginCandidate ∨ k = .LogoutCandidate ∨ k = .Delegate ∨ k = .UnDelegate) :
    (msg.Data ≠ none →
      dispatch evm msg valS txHash k "normal" gas state = .error .ErrInvalidInput) ∧
    (msg.Data = none →
      dispatch evm msg valS txHash k "normal" gas state =
        .ok (evm.CallF msg.From rcpt msg.Data gas msg.Value (some valS)
          (state.SetNonce msg.From ((state.GetNonce msg.From + 1) % 2 ^ 64)))) := by
  rcases hk with h | h | h | h <;> subst h <;>
    exact ⟨fun hd => by simp [dispatch, hto, hd], fun hd => by simp [dispatch, hto, hd]⟩

/-- Witness for C7's amended theorem: nil payload with kind Delegate
proceeds to the plain call primitive on the nonce-incremented state; the
c7Msg payload (non-nil) fails. -/
theorem claim_C7_witness :
    dispatch c3Evm ⟨List.replicate 20 1, some (List.replicate 20 2), 1, 30000, 0, 0, false, none⟩
      [] [] .Delegate "normal" 9000 c3State =
      .ok (c3Evm.CallF (List.replicate 20 1) (List.replicate 20 2) none 9000 0 (some [])
        (c3State.SetNonce (List.replicate 20 1) ((c3State.GetNonce (List.replicate 20 1) + 1) % 2 ^ 64))) ∧
    dispatch c3Evm c7Msg [] [] .UnDelegate "normal" 9000 c3State = .error .ErrInvalidInput := by
  constructor
  · exact (claim_C7_thm c3Evm
      ⟨List.replicate 20 1, some (List.replicate 20 2), 1, 30000, 0, 0, false, none⟩
      [] [] 9000 c3State (List.replicate 20 2) .Delegate rfl (by tauto)).2 rfl
  · exact (claim_C7_thm c3Evm c7Msg [] [] 9000 c3State (List.replicate 20 2) .UnDelegate
      rfl (by tauto)).1 (by simp [c7Msg])

/-! ## C1: completeness of the role/kind decision table -/

/-- Any (role, kind) pair outside the decision table makes the dispatch
switch return the invalid-transaction-kind error. -/
theorem dispatch_invalidType (evm : EVM) (msg : Message) (valS : List Address)
    (txHash : List Nat) (txType : TxType) (role : String) (gas : Nat) (state : StateDB)
    (rcpt : Address) (hto : msg.To = some rcpt)
    (hbad : (role = "template" ∧ txType ≠ .Binary ∧ txType ≠ .SourceCode ∧ txType ≠ .Endorse) ∨
        (role = "contract" ∧ txType ≠ .Endorse ∧ txType ≠ .Binary) ∨
        (role = "normal" ∧ txType ≠ .Endorse ∧ txType ≠ .Binary ∧
          txType ≠ .LoginCandidate ∧ txType ≠ .LogoutCandidate ∧
          txType ≠ .Delegate ∧ txType ≠ .UnDelegate)) :
    dispatch evm msg valS txHash txType role gas state = .error .ErrInvalidType := by
  rcases hbad with ⟨hr, h1, h2, h3⟩ | ⟨hr, h1, h2⟩ | ⟨hr, h1, h2, h3, h4, h5, h6⟩
  · subst hr
    simp [dispatch, hto, h1, h2, h3]
  · subst hr
    simp [dispatch, hto, h1, h2, show ("contract" : String) ≠ "template" by decide]
  · subst hr
    simp [dispatch, hto, h1, h2, h3, h4, h5, h6,
      show ("normal" : String) ≠ "template" by decide,
      show ("normal" : String) ≠ "contract" by decide]

/-- C1: for every transition with a present recipient that reaches the
dispatch switch, a (role, kind) pair not in the decision table — template
with a kind other than Binary/SourceCode/Endorse, contract with a kind
other than Endorse/Binary, normal with a kind other than
Endorse/Binary/LoginCandidate/LogoutCandidate/Delegate/UnDelegate — makes
TransitionDb return the invalid-transaction-kind error with no used gas,
no required gas and a false failed flag: a deterministic error, never a
silent success.  (`GetAddressType` returns no role string beyond these
three, so the case split is exhaustive.) -/
theorem claim_C1 (evm : EVM) (msg : Message) (valS : List Address) (txHash : List Nat)
    (txType : TxType) (state0 : StateDB) (gp0 : Nat) (rcpt : Address)
    (hto : msg.To = some rcpt)
    (hreach : reachesDispatch evm msg state0 gp0)
    (hbad : (roleOf state0 msg.To = "template" ∧
          txType ≠ .Binary ∧ txType ≠ .SourceCode ∧ txType ≠ .Endorse) ∨
        (roleOf state0 msg.To = "contract" ∧ txType ≠ .Endorse ∧ txType ≠ .Binary) ∨
        (roleOf state0 msg.To = "normal" ∧ txType ≠ .Endorse ∧ txType ≠ .Binary ∧
          txType ≠ .LoginCandidate ∧ txType ≠ .LogoutCandidate ∧
          txType ≠ .Delegate ∧ txType ≠ .UnDelegate)) :
    (TransitionDb evm msg valS txHash txType state0 gp0).err = some .ErrInvalidType ∧
    (TransitionDb evm msg valS txHash txType state0 gp0).usedGas = none ∧
    (TransitionDb evm msg valS txHash txType state0 gp0).requiredGas = none ∧
    (TransitionDb evm msg valS txHash txType state0 gp0).failed = false := by
  rw [transitionDb_reach evm msg valS txHash txType state0 gp0 hreach,
    afterIntrinsic_error evm msg valS txHash txType (roleOf state0 msg.To)
      (msg.Gas - intrinsicOf evm msg state0) (state2Of msg state0) (gp0 - msg.Gas) msg.Gas
      .ErrInvalidType
      (dispatch_invalidType evm msg valS txHash txType (roleOf state0 msg.To)
        (msg.Gas - intrinsicOf evm msg state0) (state2Of msg state0) rcpt hto hbad)]
  exact ⟨rfl, rfl, rfl, rfl⟩

/-- A concrete sender/recipient/state: the sender holds a balance of
1000000, every storage slot is zero (so every recipient role is normal). -/
def c1Msg : Message :=
  ⟨List.replicate 20 1, some (List.replicate 20 2), 1, 30000, 0, 0, false, none⟩

def c1State : StateDB :=
  ⟨fun a => if a = List.replicate 20 1 then 1000000 else 0, fun _ => 0, fun _ => [],
    fun _ _ => List.replicate 32 0, fun a => decide (a = List.replicate 20 1), 0⟩

/-- Witness for C1: kind SourceCode aimed at a normal recipient fails with
the invalid-kind error and reports no gas use. -/
theorem claim_C1_witness :
    (TransitionDb c3Evm c1Msg [] [] .SourceCode c1State 100000).err
      = some .ErrInvalidType ∧
    (TransitionDb c3Evm c1Msg [] [] .SourceCode c1State 100000).usedGas = none ∧
    (TransitionDb c3Evm c1Msg [] [] .SourceCode c1State 100000).failed = false := by
  have h := claim_C1 c3Evm c1Msg [] [] .SourceCode c1State 100000 (List.replicate 20 2) rfl
    ⟨by decide, by decide, by decide, by decide, by decide, by decide⟩
    (Or.inr (Or.inr ⟨by decide, by decide, by decide, by decide, by decide, by decide, by decide⟩))
  exact ⟨h.1, h.2.1, h.2.2.2⟩

/-! ## C5: exact nonce matching -/

/-- C5: with nonce checking enabled and a mismatched nonce in either
direction, TransitionDb fails with the corresponding nonce-too-high /
nonce-too-low error, reports no gas use, and leaves every balance and the
gas pool untouched — the failure precedes the gas purchase. -/
theorem claim_C5 (evm : EVM) (msg : Message) (valS : List Address) (txHash : List Nat)
    (txType : TxType) (state0 : StateDB) (gp0 : Nat)
    (hc : msg.CheckNonce = true) (hne : state0.GetNonce msg.From ≠ msg.Nonce) :
    (TransitionDb evm msg valS txHash txType state0 gp0).err
      = some (if state0.GetNonce msg.From < msg.Nonce then TErr.ErrNonceTooHigh
          else TErr.ErrNonceTooLow) ∧
    (TransitionDb evm msg valS txHash txType state0 gp0).state.balance = state0.balance ∧
    (TransitionDb evm msg valS txHash txType state0 gp0).gp = gp0 ∧
    (TransitionDb evm msg valS txHash txType state0 gp0).usedGas = none := by
  unfold TransitionDb
  rcases Nat.lt_or_ge (state0.GetNonce msg.From) msg.Nonce with hlt | hge
  · rw [if_pos ⟨hc, by rw [ensureAcct_GetNonce]; exact hlt⟩]
    refine ⟨?_, ensureAcct_balance _ _, rfl, rfl⟩
    rw [if_pos hlt]
    rfl
  · have hgt : msg.Nonce < state0.GetNonce msg.From :=
      lt_of_le_of_ne hge (fun he => hne he.symm)
    rw [if_neg (by
        rintro ⟨_, hlt⟩
        rw [ensureAcct_GetNonce] at hlt
        omega),
      if_pos ⟨hc, by rw [ensureAcct_GetNonce]; exact hgt⟩]
    refine ⟨?_, ensureAcct_balance _ _, rfl, rfl⟩
    rw [if_neg (not_lt.mpr hge)]
    rfl

/-- A message with nonce checking enabled and nonce 5 against state
nonce 0. -/
def c5Msg : Message :=
  ⟨List.replicate 20 1, some (List.replicate 20 2), 1, 30000, 0, 5, true, none⟩

/-- A message with nonce checking enabled and nonce 0 against state
nonce 5. -/
def c5MsgLow : Message :=
  ⟨List.replicate 20 1, some (List.replicate 20 2), 1, 30000, 0, 0, true, none⟩

def c5StateLow : StateDB :=
  ⟨fun a => if a = List.replicate 20 1 then 1000000 else 0, fun _ => 5, fun _ => [],
    fun _ _ => List.replicate 32 0, fun a => decide (a = List.replicate 20 1), 0⟩

/-- Witness for C5 in both directions: nonce 5 against state nonce 0
fails nonce-too-high, nonce 0 against state nonce 5 fails nonce-too-low;
neither changes the sender's balance or the pool. -/
theorem claim_C5_witness :
    (TransitionDb c3Evm c5Msg [] [] .Binary c1State 100000).err
      = some TErr.ErrNonceTooHigh ∧
    (TransitionDb c3Evm c5Msg [] [] .Binary c1State 100000).state.balance
        (List.replicate 20 1) = 1000000 ∧
    (TransitionDb c3Evm c5Msg [] [] .Binary c1State 100000).gp = 100000 ∧
    (TransitionDb c3Evm c5MsgLow [] [] .Binary c5StateLow 100000).err
      = some TErr.ErrNonceTooLow := by
  have h1 := claim_C5 c3Evm c5Msg [] [] .Binary c1State 100000 rfl (by decide)
  have h2 := claim_C5 c3Evm c5MsgLow [] [] .Binary c5StateLow 100000 rfl (by decide)
  refine ⟨?_, ?_, h1.2.2.1, ?_⟩
  · rw [h1.1]
    decide
  · rw [h1.2.1]
    decide
  · rw [h2.1]
    decide

/-! ## C4: gas accounting identities -/

theorem refundGas_fst (From : Address) (gasPrice gas initialGas : Nat) (state : StateDB)
    (gp : Nat) :
    (refundGas From gasPrice gas initialGas state gp).1
      = gas + min ((initialGas - gas) / 2) state.GetRefund := by
  simp [refundGas, StateDB.AddBalance, StateDB.GetRefund, ensureAcct_refund_raw]

/-- The execution backend whose call primitive consumes no gas but leaves
a large accumulated refund counter behind (as a storage-clearing execution
would). -/
def c4Evm : EVM :=
  ⟨List.replicate 20 3, fun _ _ g _ st => ⟨[], g, none, st⟩,
    fun _ _ g _ st => ⟨[], g, none, st⟩,
    fun _ _ _ g _ _ st => ⟨[], g, none, { st with refund := 1000000 }⟩,
    fun _ _ _ g _ _ st => ⟨[], g, none, st⟩,
    fun _ _ _ g _ _ st => ⟨[], g, none, st⟩, true⟩

/-- C4 counterexample: a valid transaction (no error, failed = false)
whose returned usedGas, 10500, is below the intrinsic gas 21000 the
message was charged: the post-refund usedGas drops below intrinsic gas
when the state refund counter is large, so `gasUsed ≥ intrinsicGas` fails
as stated. -/
theorem claim_C4_cex :
    (TransitionDb c4Evm c1Msg [] [] .Binary c1State 100000).err = none ∧
    (TransitionDb c4Evm c1Msg [] [] .Binary c1State 100000).failed = false ∧
    (TransitionDb c4Evm c1Msg [] [] .Binary c1State 100000).usedGas = some 10500 ∧
    intrinsicOf c4Evm c1Msg c1State = 21000 ∧ (10500 : Nat) < 21000 := by
  refine ⟨rfl, rfl, rfl, rfl, by norm_num⟩

/-- C4 (amended): for every transition that completes without a fatal
error (with an execution backend that does not return more gas than it was
given), the returned usedGas equals the initial gas purchased minus the
final remaining gas, and the PRE-REFUND gas used — the returned
requiredGas, `initialGas - execRemaining` — is at least the intrinsic gas;
the post-refund usedGas equals the pre-refund value whenever the state
refund counter is zero, and is never less than half the pre-refund value,
but can drop below the intrinsic gas when a refund applies (see the
counterexample). -/
theorem claim_C4_amended (evm : EVM) (msg : Message) (valS : List Address) (txHash : List Nat)
    (txType : TxType) (state0 : StateDB) (gp0 : Nat)
    (hreach : reachesDispatch evm msg state0 gp0) (eo : ExecOut)
    (hd : dispatch evm msg valS txHash txType (roleOf state0 msg.To)
        (msg.Gas - intrinsicOf evm msg state0) (state2Of msg state0) = .ok eo)
    (hvm : eo.vmerr ≠ some .InsufficientBalance)
    (hb : eo.gasLeft ≤ msg.Gas - intrinsicOf evm msg state0) :
    (TransitionDb evm msg valS txHash txType state0 gp0).usedGas
      = some ((TransitionDb evm msg valS txHash txType state0 gp0).initialGas
          - (TransitionDb evm msg valS txHash txType state0 gp0).gasLeft) ∧
    (TransitionDb evm msg valS txHash txType state0 gp0).initialGas = msg.Gas ∧
    (TransitionDb evm msg valS txHash txType state0 gp0).requiredGas
      = some (msg.Gas - eo.gasLeft) ∧
    intrinsicOf evm msg state0 ≤ msg.Gas - eo.gasLeft ∧
    (eo.state.GetRefund = 0 →
      (TransitionDb evm msg valS txHash txType state0 gp0).gasLeft = eo.gasLeft) ∧
    msg.Gas - eo.gasLeft
      ≤ 2 * (msg.Gas - (TransitionDb evm msg valS txHash txType state0 gp0).gasLeft) := by
  have h6 := hreach.2.2.2.2.2
  rw [transitionDb_reach evm msg valS txHash txType state0 gp0 hreach,
    afterIntrinsic_ok _ _ _ _ _ _ _ _ _ _ _ hd, if_neg hvm]
  refine ⟨rfl, rfl, rfl, by omega, ?_, ?_⟩
  · intro h0
    show (refundGas msg.From msg.GasPrice eo.gasLeft msg.Gas eo.state (gp0 - msg.Gas)).1
      = eo.gasLeft
    rw [refundGas_fst, h0]
    simp
  · show msg.Gas - eo.gasLeft
      ≤ 2 * (msg.Gas
        - (refundGas msg.From msg.GasPrice eo.gasLeft msg.Gas eo.state (gp0 - msg.Gas)).1)
    rw [refundGas_fst]
    have hm : min ((msg.Gas - eo.gasLeft) / 2) eo.state.GetRefund
        ≤ (msg.Gas - eo.gasLeft) / 2 := min_le_left _ _
    omega

/-- Witness for C4's amended theorem on a concrete all-gas-consuming run:
usedGas is initial minus remaining, and the pre-refund requiredGas 30000
is at least the intrinsic gas. -/
theorem claim_C4_witness :
    (TransitionDb c3Evm c1Msg [] [] .Binary c1State 100000).usedGas
      = some ((TransitionDb c3Evm c1Msg [] [] .Binary c1State 100000).initialGas
          - (TransitionDb c3Evm c1Msg [] [] .Binary c1State 100000).gasLeft) ∧
    (TransitionDb c3Evm c1Msg [] [] .Binary c1State 100000).requiredGas = some 30000 ∧
    intrinsicOf c3Evm c1Msg c1State ≤ 30000 := by
  have h := claim_C4_amended c3Evm c1Msg [] [] .Binary c1State 100000
    ⟨by decide, by decide, by decide, by decide, by decide, by decide⟩ _ rfl
    (by decide) (by decide)
  exact ⟨h.1, h.2.2.1, h.2.2.2.1⟩

/-! ## C9: propagated insufficient-balance error -/

/-- The execution backend whose call primitive reports the
insufficient-balance error. -/
def c9Evm : EVM :=
  ⟨List.replicate 20 3, fun _ _ g _ st => ⟨[], g, none, st⟩,
    fun _ _ g _ st => ⟨[], g, none, st⟩,
    fun _ _ _ g _ _ st => ⟨[], g, some .InsufficientBalance, st⟩,
    fun _ _ _ g _ _ st => ⟨[], g, none, st⟩,
    fun _ _ _ g _ _ st => ⟨[], g, none, st⟩, true⟩

/-- C9: when the execution backend returns the insufficient-balance error,
TransitionDb returns that error immediately: the final world state is
exactly the state the execution left (the sender's gas debit from the
purchase persists inside it, nothing is credited back and no reward is
paid), the gas pool keeps the full subtraction from buyGas (nothing is
returned to it), and no used or required gas is reported. -/
theorem claim_C9 (evm : EVM) (msg : Message) (valS : List Address) (txHash : List Nat)
    (txType : TxType) (state0 : StateDB) (gp0 : Nat)
    (hreach : reachesDispatch evm msg state0 gp0) (eo : ExecOut)
    (hd : dispatch evm msg valS txHash txType (roleOf state0 msg.To)
        (msg.Gas - intrinsicOf evm msg state0) (state2Of msg state0) = .ok eo)
    (hvm : eo.vmerr = some .InsufficientBalance) :
    (TransitionDb evm msg valS txHash txType state0 gp0).err
      = some .ErrInsufficientBalance ∧
    (TransitionDb evm msg valS txHash txType state0 gp0).state = eo.state ∧
    (TransitionDb evm msg valS txHash txType state0 gp0).gp = gp0 - msg.Gas ∧
    (TransitionDb evm msg valS txHash txType state0 gp0).usedGas = none ∧
    (TransitionDb evm msg valS txHash txType state0 gp0).requiredGas = none ∧
    (TransitionDb evm msg valS txHash txType state0 gp0).ret = [] := by
  rw [transitionDb_reach evm msg valS txHash txType state0 gp0 hreach,
    afterIntrinsic_ok _ _ _ _ _ _ _ _ _ _ _ hd, if_pos hvm]
  exact ⟨rfl, rfl, rfl, rfl, rfl, rfl⟩

/-- Witness for C9 on a concrete run: the error propagates, the pool keeps
the purchase subtraction (100000 - 30000), and the gas debit persists in
the final state's sender balance (1000000 - 30000). -/
theorem claim_C9_witness :
    (TransitionDb c9Evm c1Msg [] [] .Binary c1State 100000).err
      = some TErr.ErrInsufficientBalance ∧
    (TransitionDb c9Evm c1Msg [] [] .Binary c1State 100000).gp = 70000 ∧
    (TransitionDb c9Evm c1Msg [] [] .Binary c1State 100000).usedGas = none ∧
    (TransitionDb c9Evm c1Msg [] [] .Binary c1State 100000).state.GetBalance
      (List.replicate 20 1) = 970000 := by
  have h := claim_C9 c9Evm c1Msg [] [] .Binary c1State 100000
    ⟨by decide, by decide, by decide, by decide, by decide, by decide⟩ _ rfl rfl
  refine ⟨h.1, ?_, h.2.2.2.1, ?_⟩
  · rw [h.2.2.1]
    decide
  · rw [h.2.1]
    decide
